import Mathlib

/-!
Verification of the client-side behavior layer of a static portfolio page
(`src/script.js`): theme toggling with persistence, smooth-scroll
navigation, scroll-reveal latching, active-link tracking, and project-card
interactions. Each DOM event handler is embedded as a pure state
transition; machine state (body class list, toggle glyph, localStorage,
link classes, inline styles) is made explicit.
-/

namespace Site

/-- The sun glyph the toggle shows in dark mode
(`themeToggle.textContent = '☀️'`, script.js line 41). -/
def sunGlyph : String := "☀️"

/-- The moon glyph the toggle shows in light mode
(`themeToggle.textContent = '🌙'`, script.js line 44). -/
def moonGlyph : String := "🌙"

/-- The visible and persisted state the theme code touches:
whether `document.body.classList` contains `dark-mode`, the toggle
button's text content, and `localStorage.getItem('theme')`
(`none` = key absent). -/
structure ThemeState where
  darkMode : Bool
  glyph : String
  stored : Option String
  deriving DecidableEq, Repr

/-- `applyTheme(theme)` (script.js lines 38-46): on `'dark'` add the
`dark-mode` class and show the sun glyph, otherwise remove the class and
show the moon glyph. Storage is untouched. -/
def applyTheme (theme : String) (s : ThemeState) : ThemeState :=
  if theme = "dark" then { s with darkMode := true, glyph := sunGlyph }
  else { s with darkMode := false, glyph := moonGlyph }

/-- The theme-toggle click handler (script.js lines 27-31): compute the
opposite of the current visible state, apply it, persist it. -/
def themeClick (s : ThemeState) : ThemeState :=
  let newTheme := if s.darkMode then "light" else "dark"
  let s' := applyTheme newTheme s
  { s' with stored := some newTheme }

/-- The startup part of `initThemeToggle` (script.js lines 23-24):
`localStorage.getItem('theme') || 'light'` — the empty string is falsy in
JavaScript, so both an absent key and an empty stored string default to
`'light'` — then `applyTheme`. Nothing is written to storage. -/
def initTheme (s : ThemeState) : ThemeState :=
  let currentTheme :=
    match s.stored with
    | none => "light"
    | some v => if v = "" then "light" else v
  applyTheme currentTheme s

/-- The stored value, if present, is one of the two recognized strings. -/
def validStored (v : Option String) : Prop :=
  v = none ∨ v = some "light" ∨ v = some "dark"

end Site

namespace Site

/-- C5: with no persisted theme value, startup applies the light theme
(no `dark-mode` class), sets the moon ("switch to dark") glyph, and
writes nothing to storage. -/
theorem c5_init_default_light (s : ThemeState) (h : s.stored = none) :
    (initTheme s).darkMode = false ∧ (initTheme s).glyph = moonGlyph ∧
      (initTheme s).stored = none := by
  simp [initTheme, applyTheme, h]

/-- Witness for C5 at a concrete initial state. -/
theorem c5_init_default_light_witness :
    (initTheme ⟨true, "x", none⟩).darkMode = false ∧
      (initTheme ⟨true, "x", none⟩).glyph = moonGlyph ∧
      (initTheme ⟨true, "x", none⟩).stored = none :=
  c5_init_default_light ⟨true, "x", none⟩ rfl

/-- C6: every toggle click flips the visible state to the opposite theme,
applies it to both the body class and the toggle glyph, persists exactly
that theme string, and afterwards the persisted value matches the applied
visible state (class and glyph). -/
theorem c6_click_opposite_and_persist (s : ThemeState) :
    (themeClick s).darkMode = !s.darkMode ∧
      (themeClick s).glyph =
        (if (themeClick s).darkMode then sunGlyph else moonGlyph) ∧
      (themeClick s).stored = some (if s.darkMode then "light" else "dark") ∧
      ((themeClick s).stored = some "dark" ↔ (themeClick s).darkMode = true) ∧
      ((themeClick s).stored = some "dark" ↔ (themeClick s).glyph = sunGlyph) := by
  cases h : s.darkMode <;> simp [themeClick, applyTheme, h, sunGlyph, moonGlyph]

/-- C9: any persisted value other than `'dark'` (including unrecognized
strings) makes startup apply the light theme exactly as in the
absent-value case, and leaves the stored value unchanged. -/
theorem c9_unrecognized_treated_as_light (s : ThemeState) (v : String)
    (hv : s.stored = some v) (hne : v ≠ "dark") :
    (initTheme s).darkMode = false ∧ (initTheme s).glyph = moonGlyph ∧
      (initTheme s).stored = some v ∧
      (initTheme s).darkMode = (initTheme { s with stored := none }).darkMode ∧
      (initTheme s).glyph = (initTheme { s with stored := none }).glyph := by
  by_cases hempty : v = ""
  · simp [initTheme, applyTheme, hv, hempty]
  · simp [initTheme, applyTheme, hv, hempty, hne]

/-- Witness for C9 with the unrecognized stored string "banana". -/
theorem c9_unrecognized_treated_as_light_witness :
    (initTheme ⟨true, "x", some "banana"⟩).darkMode = false ∧
      (initTheme ⟨true, "x", some "banana"⟩).glyph = moonGlyph ∧
      (initTheme ⟨true, "x", some "banana"⟩).stored = some "banana" ∧
      (initTheme ⟨true, "x", some "banana"⟩).darkMode =
        (initTheme ⟨true, "x", none⟩).darkMode ∧
      (initTheme ⟨true, "x", some "banana"⟩).glyph =
        (initTheme ⟨true, "x", none⟩).glyph :=
  c9_unrecognized_treated_as_light ⟨true, "x", some "banana"⟩ "banana" rfl
    (by decide)

/-- C8: startup never writes the persisted key, and a toggle click writes
only the literal `'light'` or `'dark'`; hence a valid stored value stays
valid across both operations. -/
theorem c8_stored_stays_valid (s : ThemeState) (h : validStored s.stored) :
    (initTheme s).stored = s.stored ∧ validStored (initTheme s).stored ∧
      validStored (themeClick s).stored := by
  have hinit : (initTheme s).stored = s.stored := by
    simp [initTheme, applyTheme]
    split <;> rfl
  refine ⟨hinit, by rw [hinit]; exact h, ?_⟩
  cases hd : s.darkMode <;>
    simp [validStored, themeClick, applyTheme, hd]

/-- Witness for C8 at a concrete valid state. -/
theorem c8_stored_stays_valid_witness :
    (initTheme ⟨false, "x", some "dark"⟩).stored = some "dark" ∧
      validStored (initTheme ⟨false, "x", some "dark"⟩).stored ∧
      validStored (themeClick ⟨false, "x", some "dark"⟩).stored :=
  c8_stored_stays_valid ⟨false, "x", some "dark"⟩ (Or.inr (Or.inr rfl))

/-- C2 counterexample: from the concrete state where the body lacks the
`dark-mode` class but the glyph is the sun and the stored value is
`'dark'`, two toggle clicks end with the moon glyph and stored `'light'`:
the original glyph and persisted value are not restored. -/
theorem c2_double_toggle_counterexample :
    (themeClick (themeClick ⟨false, sunGlyph, some "dark"⟩)).glyph ≠ sunGlyph ∧
      (themeClick (themeClick ⟨false, sunGlyph, some "dark"⟩)).stored ≠
        some "dark" := by
  constructor <;> decide

/-- C2 amended: for every initial state whose glyph and persisted value
are consistent with the body class (sun glyph and stored `'dark'` exactly
when the `dark-mode` class is present, moon glyph and stored `'light'`
otherwise), two toggle clicks restore the original state exactly. -/
theorem c2_double_toggle_id (s : ThemeState)
    (hg : s.glyph = if s.darkMode then sunGlyph else moonGlyph)
    (hs : s.stored = some (if s.darkMode then "dark" else "light")) :
    themeClick (themeClick s) = s := by
  cases h : s.darkMode <;>
    · rw [h] at hg hs
      simp [themeClick, applyTheme, h]
      cases s
      simp_all

/-- Witness for the amended C2 from the consistent light state. -/
theorem c2_double_toggle_id_witness :
    themeClick (themeClick ⟨false, moonGlyph, some "light"⟩) =
      ⟨false, moonGlyph, some "light"⟩ :=
  c2_double_toggle_id ⟨false, moonGlyph, some "light"⟩ rfl rfl

end Site

namespace Site

/-- A scroll target: the only property the click handler reads is
`offsetTop`. -/
structure Target where
  offsetTop : Int
  deriving DecidableEq, Repr

/-- The `.nav-menu` container: the click handler only reads and removes
its `active` class. -/
structure Menu where
  active : Bool
  deriving DecidableEq, Repr

/-- Observable outcome of one navigation-link click: whether the default
navigation was suppressed, the scroll destination passed to
`window.scrollTo` (if any), the resulting menu state, and whether the
handler threw. -/
structure ClickOutcome where
  prevented : Bool
  scrolledTo : Option Int
  menu : Option Menu
  thrown : Bool
  deriving DecidableEq, Repr

/-- The navigation-link click handler (script.js lines 53-71):
`e.preventDefault()` always runs first; if `document.querySelector(href)`
finds a target, scroll to `offsetTop - 60` and then close the menu if it
has the `active` class — `navMenu.classList.contains` throws when
`navMenu` is `null`; if no target matches, nothing else happens. -/
def navLinkClick (target : Option Target) (navMenu : Option Menu) :
    ClickOutcome :=
  match target with
  | none => ⟨true, none, navMenu, false⟩
  | some t =>
    let dest := t.offsetTop - 60
    match navMenu with
    | none => ⟨true, some dest, none, true⟩
    | some m =>
      ⟨true, some dest, some (if m.active then ⟨false⟩ else m), false⟩

/-- The per-project-link click handler (script.js lines 173-175): it reads
`card.querySelector('.project-title').textContent`, which throws when the
title element is absent, and otherwise logs the message. -/
def projectLinkClickLog (titleText : Option String) : Except Unit String :=
  match titleText with
  | none => Except.error ()
  | some s => Except.ok ("Navigating to project: " ++ s)

/-- The `initProjectCardInteractions` setup loop (script.js lines
158-177), with each card represented by whether it contains a
`.project-link`: every card gets its hover handlers, and the click
listener is attached only under the `if (projectLink)` guard, so a card
without a link gets none and nothing throws; an empty card collection
makes the whole loop a no-op. Returns the number of click listeners
attached. -/
def projectCardsSetup (cards : List Bool) : Except Unit Nat :=
  Except.ok (cards.countP id)

/-- The smooth-scroll setup loop (script.js lines 52-72): `forEach` over
the matched `.nav-link` collection attaches one listener per link and
cannot throw; an empty collection just attaches none. Returns the number
of listeners attached. -/
def navLinksSetup (links : List String) : Except Unit Nat :=
  Except.ok links.length

/-- `initThemeToggle` under an absent or present toggle button: with the
button absent, `applyTheme` dereferences `themeToggle.textContent` on
`null` and throws; otherwise startup proceeds as `initTheme`. -/
def initThemeWithToggle (toggle : Option Unit) (s : ThemeState) :
    Except Unit ThemeState :=
  match toggle with
  | none => Except.error ()
  | some _ => Except.ok (initTheme s)

end Site

namespace Site

/-- C3: a navigation-link click whose target exists scrolls to the
target's `offsetTop` minus 60; one whose target is absent causes no
scroll, still suppresses the default navigation, leaves the menu alone,
and throws no error. -/
theorem c3_nav_click (t : Target) (nm nm' : Option Menu) :
    (navLinkClick (some t) nm).scrolledTo = some (t.offsetTop - 60) ∧
      navLinkClick none nm' = ⟨true, none, nm', false⟩ := by
  cases nm <;> simp [navLinkClick]

/-- C7 counterexample: the navigation menu container and the per-card
title are not guarded by presence checks — a click on a link whose target
exists throws when `.nav-menu` is absent, and a project-link click throws
when the card has no `.project-title`; moreover an empty `.nav-link`
collection makes initialization attach no listener rather than fault. -/
theorem c7_unguarded_counterexample :
    (navLinkClick (some ⟨120⟩) none).thrown = true ∧
      projectLinkClickLog none = Except.error () ∧
      navLinksSetup [] = Except.ok 0 := by
  refine ⟨rfl, rfl, rfl⟩

/-- C7 amended: absent project cards are tolerated (an empty card
collection makes setup a no-op) and the per-card link is guarded
(`if (projectLink)`: a card without a link gets no click listener and
setup never throws), but the navigation menu container and the per-card
title are used without presence checks: a click whose target exists
throws exactly when the menu container is absent, and a project-link
click throws exactly when the title is absent; absence of the toggle
button faults theme initialization, while an absent (empty) nav-link
collection attaches no listeners and does not fault. -/
theorem c7_guard_characterization (t : Target) (m : Menu) (s : String)
    (st : ThemeState) (ls : List String) (cards : List Bool) :
    (navLinkClick (some t) (some m)).thrown = false ∧
      (navLinkClick (some t) none).thrown = true ∧
      projectLinkClickLog (some s) =
        Except.ok ("Navigating to project: " ++ s) ∧
      projectLinkClickLog none = Except.error () ∧
      (initThemeWithToggle none st = Except.error ()) ∧
      (initThemeWithToggle (some ()) st = Except.ok (initTheme st)) ∧
      navLinksSetup ls = Except.ok ls.length ∧
      projectCardsSetup [] = Except.ok 0 ∧
      projectCardsSetup (false :: cards) =
        Except.ok ((cards.countP id : Nat)) ∧
      projectCardsSetup cards = Except.ok (cards.countP id) := by
  refine ⟨rfl, rfl, rfl, rfl, rfl, rfl, rfl, rfl, ?_, rfl⟩
  simp [projectCardsSetup]

end Site

namespace Site

/-- Per-element state of the scroll-reveal feature: `revealed` is true
when the inline style is `opacity: 1; transform: translateY(0)` (and
false for the initial `opacity: 0; translateY(20px)`), `observed` is
whether the IntersectionObserver still watches the element. -/
structure RevealState where
  revealed : Bool
  observed : Bool
  deriving DecidableEq, Repr

/-- The initial state `initScrollReveal` gives every reveal-eligible
element (script.js lines 102-107): hidden and observed. -/
def revealInit : RevealState := ⟨false, true⟩

/-- One IntersectionObserver notification for the element (script.js
lines 90-99): an element no longer observed receives no entries; an
intersecting entry sets the visible styles and unobserves the element;
a non-intersecting entry does nothing. -/
def revealStep (s : RevealState) (isIntersecting : Bool) : RevealState :=
  if s.observed && isIntersecting then ⟨true, false⟩ else s

/-- Run a sequence of intersection notifications. -/
def revealRun (s : RevealState) (evs : List Bool) : RevealState :=
  evs.foldl revealStep s

/-- The `revealed` flag of every state along a run, starting state
included. -/
def revealedTrace (s : RevealState) : List Bool → List Bool
  | [] => [s.revealed]
  | e :: es => s.revealed :: revealedTrace (revealStep s e) es

/-- Number of hidden-to-visible transitions along a trace of `revealed`
flags. -/
def countFlips : List Bool → Nat
  | [] => 0
  | [_] => 0
  | a :: b :: l => (if a = false ∧ b = true then 1 else 0) + countFlips (b :: l)

theorem revealStep_latched (e : Bool) : revealStep ⟨true, false⟩ e = ⟨true, false⟩ := by
  simp [revealStep]

theorem revealRun_latched (evs : List Bool) :
    revealRun ⟨true, false⟩ evs = ⟨true, false⟩ := by
  induction evs with
  | nil => rfl
  | cons e es ih =>
      simp only [revealRun, List.foldl_cons, revealStep_latched]
      exact ih

theorem countFlips_cons_cons (a b : Bool) (l : List Bool) :
    countFlips (a :: b :: l) =
      (if a = false ∧ b = true then 1 else 0) + countFlips (b :: l) := rfl

theorem revealedTrace_head_init (es : List Bool) :
    ∃ rest, revealedTrace revealInit es = false :: rest := by
  cases es with
  | nil => exact ⟨[], rfl⟩
  | cons e t => exact ⟨revealedTrace (revealStep revealInit e) t, rfl⟩

theorem revealedTrace_head_latched (es : List Bool) :
    ∃ rest, revealedTrace ⟨true, false⟩ es = true :: rest := by
  cases es with
  | nil => exact ⟨[], rfl⟩
  | cons e t => exact ⟨revealedTrace (revealStep ⟨true, false⟩ e) t, rfl⟩

theorem countFlips_trace_latched (evs : List Bool) :
    countFlips (revealedTrace ⟨true, false⟩ evs) = 0 := by
  induction evs with
  | nil => rfl
  | cons e es ih =>
      obtain ⟨rest, hrest⟩ := revealedTrace_head_latched es
      have h2 : revealedTrace ⟨true, false⟩ (e :: es) =
          true :: revealedTrace ⟨true, false⟩ es := rfl
      rw [h2, hrest, countFlips_cons_cons]
      rw [hrest] at ih
      simp [ih]

theorem countFlips_trace_init (evs : List Bool) :
    countFlips (revealedTrace revealInit evs) ≤ 1 := by
  induction evs with
  | nil => simp [revealInit, revealedTrace, countFlips]
  | cons e es ih =>
      cases e with
      | true =>
          obtain ⟨rest, hrest⟩ := revealedTrace_head_latched es
          have h2 : revealedTrace revealInit (true :: es) =
              false :: revealedTrace ⟨true, false⟩ es := rfl
          have h0 := countFlips_trace_latched es
          rw [h2, hrest, countFlips_cons_cons]
          rw [hrest] at h0
          simp [h0]
      | false =>
          obtain ⟨rest, hrest⟩ := revealedTrace_head_init es
          have h2 : revealedTrace revealInit (false :: es) =
              false :: revealedTrace revealInit es := rfl
          rw [h2, hrest, countFlips_cons_cons]
          rw [hrest] at ih
          simpa using ih

theorem revealRun_init_cases (evs : List Bool) :
    revealRun revealInit evs = revealInit ∨
      revealRun revealInit evs = ⟨true, false⟩ := by
  induction evs using List.reverseRecOn with
  | nil => exact Or.inl rfl
  | append_singleton es e ih =>
      rcases ih with h | h <;>
        · rw [revealRun, List.foldl_append, List.foldl_cons, List.foldl_nil]
          rw [revealRun] at h
          rw [h]
          cases e <;> simp [revealStep, revealInit]

/-- C4: from the initial hidden-and-observed state, over any sequence of
intersection notifications the element flips from hidden to visible at
most once, is unobserved exactly when it is revealed (so observation
stops at the first transition), and once revealed it stays revealed under
any further notifications. -/
theorem c4_reveal_latch (evs evs2 : List Bool) :
    countFlips (revealedTrace revealInit evs) ≤ 1 ∧
      (revealRun revealInit evs).observed = !(revealRun revealInit evs).revealed ∧
      (revealRun revealInit evs).revealed ≤
        (revealRun revealInit (evs ++ evs2)).revealed := by
  refine ⟨countFlips_trace_init evs, ?_, ?_⟩
  · rcases revealRun_init_cases evs with h | h <;> rw [h] <;> rfl
  · simp only [revealRun, List.foldl_append]
    rcases revealRun_init_cases evs with h | h <;>
      simp only [revealRun] at h <;> rw [h]
    · exact Bool.false_le _
    · have hrun : List.foldl revealStep ⟨true, false⟩ evs2 =
        revealRun ⟨true, false⟩ evs2 := rfl
      rw [hrun, revealRun_latched]

end Site

namespace Site

/-- One element of `document.querySelectorAll('section, header')`, in
document order: its `id` attribute (`none` when absent, as
`getAttribute('id')` returns `null`) and its `offsetTop`. -/
structure PageSection where
  id : Option String
  offsetTop : Int
  deriving DecidableEq, Repr

/-- One `.nav-link` element: its `href` attribute and whether its class
list contains `active`. -/
structure NavLink where
  href : String
  active : Bool
  deriving DecidableEq, Repr

/-- The qualifying test of the scroll handler (script.js lines 120-121):
`window.pageYOffset >= section.offsetTop - 100`. -/
def qualifies (scrollY : Int) (sec : PageSection) : Bool :=
  sec.offsetTop - 100 ≤ scrollY

/-- The `currentSection` variable after the section loop (script.js
lines 117-124): it starts as the empty string (`some ""`) and each
qualifying section overwrites it with its `id` attribute, which may be
`null` (`none`). -/
def currentSectionOf (scrollY : Int) (sections : List PageSection) :
    Option String :=
  sections.foldl
    (fun cur sec => if qualifies scrollY sec then sec.id else cur) (some "")

/-- JavaScript template-literal rendering of `` `#${currentSection}` ``:
`null` stringifies to `"null"`. -/
def hrefOfCurrent : Option String → String
  | some s => "#" ++ s
  | none => "#null"

/-- The scroll handler's link update (script.js lines 127-132): remove
`active` from every link, then add it back exactly on links whose `href`
equals `'#' + currentSection`. -/
def scrollHandler (scrollY : Int) (sections : List PageSection)
    (links : List NavLink) : List NavLink :=
  let target := hrefOfCurrent (currentSectionOf scrollY sections)
  links.map fun l => { l with active := l.href == target }

theorem getLast?_cons_eq_some (b : PageSection) (rest : List PageSection) :
    ∃ x, (b :: rest).getLast? = some x := by
  induction rest generalizing b with
  | nil => exact ⟨b, rfl⟩
  | cons c t ih =>
      obtain ⟨x, hx⟩ := ih c
      exact ⟨x, by rw [List.getLast?_cons_cons]; exact hx⟩

theorem foldl_pick_last (q : PageSection → Bool) (l : List PageSection)
    (init : Option String) :
    l.foldl (fun cur sec => if q sec then sec.id else cur) init =
      ((l.filter q).getLast?).elim init (fun sec => sec.id) := by
  induction l generalizing init with
  | nil => rfl
  | cons a t ih =>
      rw [List.foldl_cons, List.filter_cons]
      by_cases hq : q a
      · rw [if_pos hq, if_pos hq, ih]
        cases hft : t.filter q with
        | nil => rfl
        | cons b rest =>
            rw [List.getLast?_cons_cons]
            obtain ⟨x, hx⟩ := getLast?_cons_eq_some b rest
            rw [hx]
            rfl
      · rw [if_neg hq, if_neg hq, ih]

theorem currentSection_eq_last_qualifying (scrollY : Int)
    (sections : List PageSection) (sec : PageSection)
    (hlast : (sections.filter (qualifies scrollY)).getLast? = some sec) :
    currentSectionOf scrollY sections = sec.id := by
  rw [currentSectionOf, foldl_pick_last, hlast]
  rfl

theorem scrollHandler_active_iff (scrollY : Int)
    (sections : List PageSection) (links : List NavLink) :
    ∀ l ∈ scrollHandler scrollY sections links,
      l.active = true ↔
        l.href = hrefOfCurrent (currentSectionOf scrollY sections) := by
  intro l hl
  rw [scrollHandler, List.mem_map] at hl
  obtain ⟨l0, _, rfl⟩ := hl
  simp

/-- C1 counterexample: with two navigation links sharing the href `#a`
and a single qualifying section with id `a`, the scroll handler at scroll
offset 0 marks both links active, refuting "exactly one or zero
navigation links carry the 'active' class". -/
theorem c1_duplicate_href_counterexample :
    ¬((scrollHandler 0 [⟨some "a", 0⟩] [⟨"#a", false⟩, ⟨"#a", false⟩]).countP
        (fun l => l.active) ≤ 1) := by
  decide

/-- C1 amended: after the scroll handler runs, on every page a link is
active exactly when its href equals `'#'` followed by the rendered id of
the last section or header element whose `offsetTop - 100` is at most the
scroll offset (the empty string when none qualifies, `"null"` when that
element has no id); consequently, when the links' hrefs are pairwise
distinct, at most one link is active. -/
theorem c1_active_characterization (scrollY : Int)
    (sections : List PageSection) (links : List NavLink) :
    (∀ l ∈ scrollHandler scrollY sections links,
        l.active = true ↔
          l.href = hrefOfCurrent (currentSectionOf scrollY sections)) ∧
      (∀ sec, (sections.filter (qualifies scrollY)).getLast? = some sec →
        currentSectionOf scrollY sections = sec.id) ∧
      ((links.map (fun l => l.href)).Nodup →
        (scrollHandler scrollY sections links).countP (fun l => l.active) ≤ 1) := by
  refine ⟨scrollHandler_active_iff scrollY sections links,
    fun sec h => currentSection_eq_last_qualifying scrollY sections sec h, ?_⟩
  intro hnodup
  rw [scrollHandler]
  set target := hrefOfCurrent (currentSectionOf scrollY sections) with htarget
  rw [List.countP_map]
  have hcount : links.countP
      ((fun l : NavLink => l.active) ∘ fun l => { l with active := l.href == target }) =
      (links.map (fun l => l.href)).count target := by
    rw [List.count, List.countP_map]
    rfl
  rw [hcount]
  exact List.nodup_iff_count_le_one.mp hnodup target

/-- Witness for the amended C1 at a concrete page with distinct hrefs. -/
theorem c1_active_characterization_witness :
    (scrollHandler 150 [⟨some "home", 0⟩, ⟨some "about", 200⟩]
        [⟨"#home", false⟩, ⟨"#about", false⟩]).countP (fun l => l.active) ≤ 1 :=
  (c1_active_characterization 150 [⟨some "home", 0⟩, ⟨some "about", 200⟩]
    [⟨"#home", false⟩, ⟨"#about", false⟩]).2.2 (by decide)

/-- C10: when the last qualifying section or header element has no id and
no link's href is the literal `"#null"`, the scroll handler leaves every
navigation link inactive. -/
theorem c10_null_id_clears_links (scrollY : Int)
    (sections : List PageSection) (links : List NavLink) (sec : PageSection)
    (hlast : (sections.filter (qualifies scrollY)).getLast? = some sec)
    (hid : sec.id = none)
    (hhref : ∀ l ∈ links, l.href ≠ "#null") :
    (scrollHandler scrollY sections links).all (fun l => !l.active) = true := by
  rw [List.all_eq_true]
  intro l hl
  rw [scrollHandler, List.mem_map] at hl
  obtain ⟨l0, hl0, rfl⟩ := hl
  have hcur : currentSectionOf scrollY sections = none := by
    rw [currentSection_eq_last_qualifying scrollY sections sec hlast, hid]
  simp [hcur, hrefOfCurrent, hhref l0 hl0]

/-- Witness for C10 at a concrete page whose lowest qualifying element
lacks an id. -/
theorem c10_null_id_clears_links_witness :
    (scrollHandler 500 [⟨some "a", 0⟩, ⟨none, 100⟩] [⟨"#a", true⟩]).all
      (fun l => !l.active) = true :=
  c10_null_id_clears_links 500 [⟨some "a", 0⟩, ⟨none, 100⟩] [⟨"#a", true⟩]
    ⟨none, 100⟩ (by decide) rfl (by decide)

end Site
